import Mathlib

/-!
Verification of the update-and-process-orchestration core of
`src/clash-launcher/src-tauri/src/lib.rs` (a Tauri launcher backend).

The Rust functions are shallowly embedded: every external effect (the HTTP
request, filesystem operations, the shelled-out commands, the child process
streams) is modelled as an explicit input holding that effect's result, and
the control flow of each function is translated branch by branch.  Rust's
`str::starts_with` / `str::ends_with` are modelled as prefix / suffix of the
string's character sequence.
-/

/-- Release metadata asset, mirroring `struct GitHubAsset` (lib.rs:24-28). -/
structure GitHubAsset where
  name : String
  browser_download_url : String
deriving DecidableEq

/-- Release metadata, mirroring `struct GitHubRelease` (lib.rs:18-22). -/
structure GitHubRelease where
  tag_name : String
  assets : List GitHubAsset
deriving DecidableEq

/-- Models Rust `str::starts_with`: the pattern is a prefix of the string's
character sequence. -/
def strStartsWith (s pat : String) : Bool :=
  pat.data.isPrefixOf s.data

/-- Models Rust `str::ends_with`: the pattern is a suffix of the string's
character sequence. -/
def strEndsWith (s pat : String) : Bool :=
  pat.data.isSuffixOf s.data

/-- Asset matches the client naming convention:
`asset.name.starts_with("client-") && asset.name.ends_with(".tar.gz")`
(lib.rs:132). -/
def isClientAsset (a : GitHubAsset) : Bool :=
  strStartsWith a.name "client-" && strEndsWith a.name ".tar.gz"

/-- Asset matches the server naming convention:
`asset.name.starts_with("server-") && asset.name.ends_with(".tar.gz")`
(lib.rs:134). -/
def isServerAsset (a : GitHubAsset) : Bool :=
  strStartsWith a.name "server-" && strEndsWith a.name ".tar.gz"

/-- One iteration of the asset scan loop of `check_for_updates`
(lib.rs:131-137): a client match overwrites `client_url`; otherwise a server
match overwrites `server_url`; other assets are skipped. -/
def scanStep (acc : Option String × Option String) (a : GitHubAsset) :
    Option String × Option String :=
  if isClientAsset a then (some a.browser_download_url, acc.2)
  else if isServerAsset a then (acc.1, some a.browser_download_url)
  else acc

/-- The whole scan loop over the release's assets, started from
`(None, None)` (lib.rs:128-137). -/
def scanAssets (assets : List GitHubAsset) : Option String × Option String :=
  assets.foldl scanStep (none, none)

/-- The pair returned when the expected client/server pair cannot be located
(lib.rs:141). -/
def ambiguousMsg : String := "Could not find both client and server packages."

/-- Pure resolution part of `check_for_updates` (lib.rs:127-145), run once the
release metadata has been fetched and parsed.  `none` models Rust `Ok(None)`
(no update); `some (c, s)` models `Ok(Some((c, s)))`; the ambiguous outcome is
`some (ambiguousMsg, "")` exactly as in the source. -/
def resolve_update (current_tag : String) (release : GitHubRelease) :
    Option (String × String) :=
  if release.tag_name ≠ current_tag then
    match scanAssets release.assets with
    | (some c, some s) => some (c, s)
    | _ => some (ambiguousMsg, "")
  else
    none

/-- HTTP response to the release-metadata request: the success flag and text
of `response.status()`, and the result of `response.json()` (lib.rs:115-125). -/
structure ReleaseResponse where
  statusSuccess : Bool
  status : String
  body : Except String GitHubRelease

/-- Full `check_for_updates` (lib.rs:96-146), with the network request
modelled as an input: `send` is the result of
`client.get(&api_url).send().await`. -/
def check_for_updates (current_tag : String)
    (send : Except String ReleaseResponse) :
    Except String (Option (String × String)) :=
  match send with
  | .error e => .error ("Failed to fetch latest release info: " ++ e)
  | .ok resp =>
    if !resp.statusSuccess then
      .error ("GitHub API request failed with status: " ++ resp.status)
    else
      match resp.body with
      | .error e => .error ("Failed to parse latest release info: " ++ e)
      | .ok release => .ok (resolve_update current_tag release)

/-- A string starting with `"server-"` does not start with `"client-"`. -/
lemma strStartsWith_server_not_client (s : String)
    (h : strStartsWith s "server-" = true) :
    strStartsWith s "client-" = false := by
  unfold strStartsWith at h ⊢
  have hs : "server-".data = ['s', 'e', 'r', 'v', 'e', 'r', '-'] := rfl
  have hc : "client-".data = ['c', 'l', 'i', 'e', 'n', 't', '-'] := rfl
  rw [hs] at h
  rw [hc]
  cases hd : s.data with
  | nil => rw [hd] at h; simp [List.isPrefixOf] at h
  | cons b bs =>
    rw [hd] at h
    simp only [List.isPrefixOf, Bool.and_eq_true, beq_iff_eq] at h
    simp only [List.isPrefixOf, Bool.and_eq_false_iff, beq_eq_false_iff_ne, ne_eq]
    left
    rw [← h.1]
    decide

/-- An asset matching the server convention does not match the client
convention. -/
lemma isServerAsset_not_client (a : GitHubAsset)
    (h : isServerAsset a = true) : isClientAsset a = false := by
  unfold isServerAsset at h
  unfold isClientAsset
  have h1 : strStartsWith a.name "server-" = true := by
    rcases Bool.and_eq_true _ _ |>.mp h with ⟨h1, _⟩
    exact h1
  rw [strStartsWith_server_not_client a.name h1, Bool.false_and]

/-- The predicate actually deciding the server branch of the scan loop agrees
with the server convention everywhere, because no asset matches both
conventions. -/
lemma server_branch_pred_eq :
    (fun a => !isClientAsset a && isServerAsset a) = isServerAsset := by
  funext a
  cases h : isServerAsset a
  · simp [h]
  · rw [isServerAsset_not_client a h]
    simp

/-- First component of one scan step. -/
lemma scanStep_fst (acc : Option String × Option String) (a : GitHubAsset) :
    (scanStep acc a).1 =
      if isClientAsset a then some a.browser_download_url else acc.1 := by
  unfold scanStep
  cases h1 : isClientAsset a <;> cases h2 : isServerAsset a <;> simp [h1, h2]

/-- Second component of one scan step. -/
lemma scanStep_snd (acc : Option String × Option String) (a : GitHubAsset) :
    (scanStep acc a).2 =
      if !isClientAsset a && isServerAsset a then some a.browser_download_url
      else acc.2 := by
  unfold scanStep
  cases h1 : isClientAsset a <;> cases h2 : isServerAsset a <;> simp [h1, h2]

/-- The scan loop's `client_url` is the URL of the last client-convention
match (the first match of the reversed asset list). -/
lemma foldl_scanStep_fst (l : List GitHubAsset) : ∀ acc,
    (l.foldl scanStep acc).1 =
      ((l.reverse.find? isClientAsset).map (·.browser_download_url)).or acc.1 := by
  induction l with
  | nil => intro acc; simp
  | cons a l ih =>
    intro acc
    rw [List.foldl_cons, ih (scanStep acc a), List.reverse_cons,
      List.find?_append, scanStep_fst]
    cases h : isClientAsset a
    · cases hx : l.reverse.find? isClientAsset <;> simp [h, hx]
    · cases hx : l.reverse.find? isClientAsset <;> simp [h, hx]

/-- The scan loop's `server_url` is the URL of the last server-branch match
(the first match of the reversed asset list). -/
lemma foldl_scanStep_snd (l : List GitHubAsset) : ∀ acc,
    (l.foldl scanStep acc).2 =
      ((l.reverse.find? (fun a => !isClientAsset a && isServerAsset a)).map
        (·.browser_download_url)).or acc.2 := by
  induction l with
  | nil => intro acc; simp
  | cons a l ih =>
    intro acc
    rw [List.foldl_cons, ih (scanStep acc a), List.reverse_cons,
      List.find?_append, scanStep_snd]
    cases h : (!isClientAsset a && isServerAsset a)
    · cases hx : l.reverse.find? (fun a => !isClientAsset a && isServerAsset a) <;>
        simp [h, hx]
    · cases hx : l.reverse.find? (fun a => !isClientAsset a && isServerAsset a) <;>
        simp [h, hx]

/-- Closed form of the scan loop: each selected URL is that of the last
matching asset in list order. -/
lemma scanAssets_eq (assets : List GitHubAsset) :
    scanAssets assets =
      ((assets.reverse.find? isClientAsset).map (·.browser_download_url),
       (assets.reverse.find? isServerAsset).map (·.browser_download_url)) := by
  have h1 := foldl_scanStep_fst assets (none, none)
  have h2 := foldl_scanStep_snd assets (none, none)
  rw [server_branch_pred_eq] at h2
  rw [Option.or_none] at h1 h2
  unfold scanAssets
  rw [Prod.ext_iff]
  exact ⟨h1, h2⟩

/-- Finding is taking the head of the filtered list. -/
lemma find?_eq_head?_of_filter {α : Type} (p : α → Bool) :
    ∀ l : List α, l.find? p = (l.filter p).head? := by
  intro l
  induction l with
  | nil => rfl
  | cons a l ih =>
    cases h : p a
    · have h' : ¬ p a := by simp [h]
      rw [List.find?_cons_of_neg _ h', List.filter_cons_of_neg h', ih]
    · rw [List.find?_cons_of_pos _ h, List.filter_cons_of_pos h]
      rfl

/-- A filter producing a singleton pins down the reversed find. -/
lemma find?_reverse_of_filter_singleton {α : Type} {p : α → Bool}
    {l : List α} {x : α} (h : l.filter p = [x]) :
    l.reverse.find? p = some x := by
  rw [find?_eq_head?_of_filter, List.filter_reverse, h]
  rfl

/-- A filter producing nothing pins down the reversed find. -/
lemma find?_reverse_of_filter_nil {α : Type} {p : α → Bool}
    {l : List α} (h : l.filter p = []) :
    l.reverse.find? p = none := by
  rw [find?_eq_head?_of_filter, List.filter_reverse, h]
  rfl

/-- Successful wrapper response reduces to the pure resolution. -/
lemma check_for_updates_ok (ct st : String) (rel : GitHubRelease) :
    check_for_updates ct (.ok ⟨true, st, .ok rel⟩) =
      .ok (resolve_update ct rel) := rfl

/-- Shared helper: when the reversed-list finds pin down the last client and
server matches, resolution on a differing tag returns their URLs. -/
lemma resolve_update_of_find? (ct : String) (rel : GitHubRelease)
    (ca sa : GitHubAsset)
    (h : rel.tag_name ≠ ct)
    (hc : rel.assets.reverse.find? isClientAsset = some ca)
    (hs : rel.assets.reverse.find? isServerAsset = some sa) :
    resolve_update ct rel =
      some (ca.browser_download_url, sa.browser_download_url) := by
  unfold resolve_update
  rw [if_pos h, scanAssets_eq, hc, hs]
  rfl

/-- Shared helper: with a differing tag and no asset matching the server
naming convention, resolution returns the ambiguous outcome. -/
lemma resolve_update_of_no_server (ct : String) (rel : GitHubRelease)
    (h : rel.tag_name ≠ ct)
    (hz : rel.assets.filter isServerAsset = []) :
    resolve_update ct rel = some (ambiguousMsg, "") := by
  unfold resolve_update
  rw [if_pos h, scanAssets_eq, find?_reverse_of_filter_nil hz]
  cases hx : rel.assets.reverse.find? isClientAsset <;> rfl

/-- C1 (counterexample to the claim as stated): a release whose tag differs
from the current tag, holding one client asset and two server-convention
assets, resolves to a found update carrying the second server URL - not to
the ambiguous outcome the claim requires for duplicate server matches. -/
theorem c1_counterexample :
    resolve_update "v1"
        ⟨"v2", [⟨"client-a.tar.gz", "CA"⟩, ⟨"server-a.tar.gz", "SA"⟩,
                ⟨"server-b.tar.gz", "SB"⟩]⟩
      = some ("CA", "SB")
    ∧ (("CA" : String), ("SB" : String)) ≠ (ambiguousMsg, "") := by decide

/-- C1 (amended): for every release whose tag differs from the current tag
and that has zero assets matching the server naming convention,
`check_for_updates` returns the distinguishable ambiguous outcome; and for
any parsed release it returns some `Ok` value, never an unhandled error.
(Two or more server matches do not yield the ambiguous outcome: the last one
is silently used, see the counterexample.) -/
theorem c1_zero_server_matches_ambiguous (ct st : String) (rel : GitHubRelease) :
    (rel.tag_name ≠ ct → rel.assets.filter isServerAsset = [] →
      check_for_updates ct (.ok ⟨true, st, .ok rel⟩)
        = .ok (some (ambiguousMsg, "")))
    ∧ ∃ v, check_for_updates ct (.ok ⟨true, st, .ok rel⟩) = .ok v := by
  constructor
  · intro h hz
    rw [check_for_updates_ok]
    rw [resolve_update_of_no_server ct rel h hz]
  · exact ⟨resolve_update ct rel, check_for_updates_ok ct st rel⟩

/-- C1 witness: concrete release with a client asset and no server asset. -/
theorem c1_witness :
    check_for_updates "v1"
        (.ok ⟨true, "200 OK", .ok ⟨"v2", [⟨"client-a.tar.gz", "CA"⟩]⟩⟩)
      = .ok (some (ambiguousMsg, "")) :=
  (c1_zero_server_matches_ambiguous "v1" "200 OK"
    ⟨"v2", [⟨"client-a.tar.gz", "CA"⟩]⟩).1 (by decide) (by decide)

/-- C2 (counterexample to the claim as stated): with two server-convention
assets, the URL selected is that of the second (later) match, not the first
match in list order. -/
theorem c2_counterexample :
    resolve_update "v1"
        ⟨"v2", [⟨"server-a.tar.gz", "SA"⟩, ⟨"server-b.tar.gz", "SB"⟩,
                ⟨"client-c.tar.gz", "CC"⟩]⟩
      = some ("CC", "SB")
    ∧ ("SB" : String) ≠ "SA" := by decide

/-- C2 (amended): when `check_for_updates` scans the asset list of a release
whose tag differs, for each naming convention the URL it selects is that of
the last matching asset in list order (the first match of the reversed
list); earlier duplicate matches are silently shadowed. -/
theorem c2_last_match_selected (ct : String) (rel : GitHubRelease)
    (ca sa : GitHubAsset)
    (h : rel.tag_name ≠ ct)
    (hc : rel.assets.reverse.find? isClientAsset = some ca)
    (hs : rel.assets.reverse.find? isServerAsset = some sa) :
    resolve_update ct rel =
      some (ca.browser_download_url, sa.browser_download_url) :=
  resolve_update_of_find? ct rel ca sa h hc hs

/-- C2 witness: concrete release where the later server asset wins. -/
theorem c2_witness :
    resolve_update "v1"
        ⟨"v2", [⟨"server-a.tar.gz", "SA"⟩, ⟨"client-c.tar.gz", "CC"⟩,
                ⟨"server-b.tar.gz", "SB"⟩]⟩
      = some ("CC", "SB") :=
  c2_last_match_selected "v1" _ ⟨"client-c.tar.gz", "CC"⟩
    ⟨"server-b.tar.gz", "SB"⟩ (by decide) (by decide) (by decide)

/-- C3: for distinct tags, a release with exactly one client-convention
asset and exactly one server-convention asset resolves to a found update
carrying those two assets' download URLs; and checking against a release
with the same tag returns no update. -/
theorem c3_unique_pair_update_found (t1 st : String) (rel : GitHubRelease)
    (ca sa : GitHubAsset)
    (h : rel.tag_name ≠ t1)
    (hc : rel.assets.filter isClientAsset = [ca])
    (hs : rel.assets.filter isServerAsset = [sa]) :
    check_for_updates t1 (.ok ⟨true, st, .ok rel⟩)
      = .ok (some (ca.browser_download_url, sa.browser_download_url))
    ∧ ∀ (t : String) (rl : GitHubRelease), rl.tag_name = t →
        check_for_updates t (.ok ⟨true, st, .ok rl⟩) = .ok none := by
  constructor
  · rw [check_for_updates_ok]
    rw [resolve_update_of_find? t1 rel ca sa h
      (find?_reverse_of_filter_singleton hc)
      (find?_reverse_of_filter_singleton hs)]
  · intro t rl ht
    rw [check_for_updates_ok]
    unfold resolve_update
    rw [if_neg (fun hne => hne ht)]

/-- C3 witness: the spec's concrete scenario, release `v2` against current
tag `v1`. -/
theorem c3_witness :
    check_for_updates "v1"
        (.ok ⟨true, "200 OK",
          .ok ⟨"v2", [⟨"client-v2.tar.gz", "CU"⟩, ⟨"server-v2.tar.gz", "SU"⟩]⟩⟩)
      = .ok (some ("CU", "SU")) :=
  (c3_unique_pair_update_found "v1" "200 OK" _ ⟨"client-v2.tar.gz", "CU"⟩
    ⟨"server-v2.tar.gz", "SU"⟩ (by decide) (by decide) (by decide)).1

/-- Models Rust `str::trim`: leading and trailing whitespace characters are
removed from the character sequence. -/
def strTrim (s : String) : String :=
  ⟨((s.data.dropWhile Char.isWhitespace).reverse.dropWhile
      Char.isWhitespace).reverse⟩

/-- Port Reclaimer `kill_process_using_port` (lib.rs:30-91), modelling the
`cfg(not(windows))` branch (the windows branch has the same claim-relevant
structure).  External effects are inputs: `bindOk` is whether
`TcpListener::bind("127.0.0.1:<port>")` succeeds; `lsof` is the result of
running `lsof -ti :<port>` (carrying its stdout on success); `killRun` is
the result of running `kill -9 <pid>`, where `Except.ok b` means the command
could be executed and `b` is its exit success - which the source never
inspects.  Parsing the address of a `u16` port cannot fail and is elided. -/
def kill_process_using_port (port : Nat) (bindOk : Bool)
    (lsof : Except String String) (killRun : Except String Bool) :
    Except String (Option String) :=
  if bindOk then .ok none
  else
    match lsof with
    | .error e => .error ("Failed to run lsof: " ++ e)
    | .ok out =>
      if strTrim out = "" then
        .error ("Failed to identify process using port " ++ toString port)
      else
        match killRun with
        | .error e => .error ("Failed to kill process: " ++ e)
        | .ok _ =>
          .ok (some ("Killed process with PID " ++ strTrim out
            ++ " using port " ++ toString port))

/-- Outcome of one invocation of a Tauri command that may panic.  `ok pid`
models the command returning `Ok(())` after emitting the child's process id;
`err` models returning `Err`; `panicked` models a panic inside the command
(such as `.unwrap()` on an `Err`). -/
inductive StartOutcome where
  | ok (pid : Nat)
  | err (msg : String)
  | panicked (msg : String)
deriving DecidableEq

/-- Whether an outcome is the command returning `Err` to its caller (as
opposed to succeeding or panicking). -/
def StartOutcome.isErrReturn : StartOutcome → Bool
  | .err _ => true
  | _ => false

/-- Control flow of `start_server` up to the spawn (lib.rs:248-266, 310-311).
`reclaimer` is the result of `kill_process_using_port(12345)`, on which the
source calls `.unwrap()`: an `Err` there panics the command (modelled as
`StartOutcome.panicked` carrying the unwrapped message) instead of being
returned.  `exeExists` is `game_path.exists()`; `spawn` is `cmd.spawn()`
carrying the child's pid on success. -/
def start_server_outcome (reclaimer : Except String (Option String))
    (exeExists : Bool) (spawn : Except String Nat) : StartOutcome :=
  match reclaimer with
  | .error e => .panicked e
  | .ok _ =>
    if !exeExists then .err "Server executable not found"
    else
      match spawn with
      | .error e => .err ("Failed to start server: " ++ e)
      | .ok pid => .ok pid

/-- Line relay loop spawned by `start_server` for one output stream
(lib.rs:271-306): each `Ok` line read is emitted as one event named `event`;
a read error breaks the loop after local logging; end of stream ends it.
The relay produces only emitted events - it has no error outcome. -/
def relay_lines (event : String) :
    List (Except String String) → List (String × String)
  | [] => []
  | .ok line :: rest => (event, line) :: relay_lines event rest
  | .error _ :: _ => []

/-- Full `start_server` (lib.rs:248-312): the command's outcome plus the
events emitted by the two relay tasks (`server-log` lines from stdout,
`server-error` lines from stderr).  `stdoutLines` and `stderrLines` are the
successive results of the buffered line reads on each pipe.  When the
command does not reach a successful spawn, no relay task starts. -/
def start_server (reclaimer : Except String (Option String))
    (exeExists : Bool) (spawn : Except String Nat)
    (stdoutLines stderrLines : List (Except String String)) :
    StartOutcome × List (String × String) × List (String × String) :=
  match start_server_outcome reclaimer exeExists spawn with
  | .ok pid =>
    (.ok pid, relay_lines "server-log" stdoutLines,
      relay_lines "server-error" stderrLines)
  | o => (o, [], [])

/-- One step of the download stream loop: a poll of `stream.next()` together
with the subsequent `file.write_all` (lib.rs:175-180).  `chunkOk` is a chunk
read and written successfully; `chunkReadErr` is `stream.next()` yielding an
`Err`; `chunkWriteErr` is a chunk read successfully whose write to the
destination file fails.  Bytes are modelled as naturals. -/
inductive ChunkEvent where
  | chunkOk (bytes : List Nat)
  | chunkReadErr (e : String)
  | chunkWriteErr (bytes : List Nat) (e : String)
deriving DecidableEq

/-- The `while let Some(chunk) = stream.next().await` loop of `download_file`
(lib.rs:175-180), threading the destination file's contents.  Returns the
loop's result together with the file's contents when the loop stops. -/
def download_loop (fname : String) :
    List ChunkEvent → List Nat → Except String Unit × List Nat
  | [], written => (.ok (), written)
  | .chunkOk bytes :: rest, written => download_loop fname rest (written ++ bytes)
  | .chunkReadErr e :: _, written =>
    (.error ("Error reading download stream for " ++ fname ++ ": " ++ e), written)
  | .chunkWriteErr _ e :: _, written =>
    (.error ("Error writing to file " ++ fname ++ ": " ++ e), written)

/-- HTTP response to one download request: the success flag and text of
`response.status()`, and the body's chunk stream. -/
structure DlResponse where
  statusSuccess : Bool
  status : String
  chunks : List ChunkEvent

/-- Inner `download_file` of `download_and_extract_updates` (lib.rs:155-183).
`send` is `client.get(&url).send().await`; `create` is
`fs::File::create(filename)`, which truncates, so the file starts empty.
The second component is the destination file: `none` when it was never
created, `some bytes` its contents afterwards. -/
def download_file (fname : String) (send : Except String DlResponse)
    (create : Except String Unit) : Except String Unit × Option (List Nat) :=
  match send with
  | .error e => (.error ("Failed to download " ++ fname ++ ": " ++ e), none)
  | .ok resp =>
    if !resp.statusSuccess then
      (.error ("Failed to download " ++ fname ++ ", status: " ++ resp.status),
        none)
    else
      match create with
      | .error e => (.error ("Failed to create file " ++ fname ++ ": " ++ e), none)
      | .ok _ =>
        let r := download_loop fname resp.chunks []
        (r.1, some r.2)

/-- Staging path `updates/client.tar.gz` (lib.rs:185). -/
def clientArchivePath : String := "updates/client.tar.gz"

/-- Staging path `updates/server.tar.gz` (lib.rs:186). -/
def serverArchivePath : String := "updates/server.tar.gz"

/-- Fail-fast join of two concurrent tasks (`try_join!`, lib.rs:188-191 and
217-220).  When both tasks fail, which error is observed first depends on
scheduling; `firstTask` is that scheduling choice (`true`: the first task's
error surfaces). -/
def try_join2 (a b : Except String Unit) (firstTask : Bool) :
    Except String Unit :=
  match a, b with
  | .ok _, .ok _ => .ok ()
  | .error e, .ok _ => .error e
  | .ok _, .error e => .error e
  | .error e1, .error e2 => .error (if firstTask then e1 else e2)

/-- A string mentions `sub` when `sub` occurs contiguously in it. -/
def mentions (m sub : String) : Prop :=
  ∃ pre post, m = pre ++ sub ++ post

/-- Filesystem effects of one `download_and_extract_updates` call: the
directories created, the staging files written, and the archives opened. -/
structure Fs where
  dirs : List String
  files : List (String × List Nat)
  openedArchives : List String
deriving DecidableEq

/-- Staging files on disk after the two download tasks ran: each task's file
holds whatever that task wrote (also when the task failed part-way). -/
def stagedFiles (cw sw : Option (List Nat)) : List (String × List Nat) :=
  (match cw with | some w => [(clientArchivePath, w)] | none => []) ++
  (match sw with | some w => [(serverArchivePath, w)] | none => [])

/-- One extraction task `extract_tar_gz` (lib.rs:205-215): `openRes` is
`fs::File::open(archive_path)`; `unpackRes` is `archive.unpack(extract_path)`.
The second component lists the archives the task opened. -/
def extract_tar_gz (archivePath extractPath : String)
    (openRes unpackRes : Except String Unit) :
    Except String Unit × List String :=
  match openRes with
  | .error e => (.error ("Failed to open archive " ++ archivePath ++ ": " ++ e), [])
  | .ok _ =>
    (match unpackRes with
     | .error e =>
       .error ("Failed to extract " ++ archivePath ++ " to " ++ extractPath
         ++ ": " ++ e)
     | .ok _ => .ok (),
     [archivePath])

/-- Full `download_and_extract_updates` (lib.rs:149-224).  Effects are
inputs in source order: `mkUpdatesDir` is `create_dir_all("updates")`;
`sendC`/`createC` and `sendS`/`createS` feed the two `download_file` tasks;
`dlFirst` schedules the download `try_join!`; `mkClientDir`/`mkServerDir`
are `create_dir_all` of the two install roots; `openC`/`unpackC` and
`openS`/`unpackS` feed the two `extract_tar_gz` tasks; `exFirst` schedules
the extraction `try_join!`.  Returns the command's result and the
filesystem effects performed. -/
def download_and_extract_updates
    (mkUpdatesDir : Except String Unit)
    (sendC : Except String DlResponse) (createC : Except String Unit)
    (sendS : Except String DlResponse) (createS : Except String Unit)
    (dlFirst : Bool)
    (mkClientDir mkServerDir : Except String Unit)
    (openC unpackC openS unpackS : Except String Unit)
    (exFirst : Bool) : Except String Unit × Fs :=
  match mkUpdatesDir with
  | .error e =>
    (.error ("Failed to create download directory: " ++ e), ⟨[], [], []⟩)
  | .ok _ =>
    let c := download_file clientArchivePath sendC createC
    let s := download_file serverArchivePath sendS createS
    let fs1 : Fs := ⟨["updates"], stagedFiles c.2 s.2, []⟩
    match Except.mapError
        (fun e => "Failed to download one or both files: " ++ e)
        (try_join2 c.1 s.1 dlFirst) with
    | .error e => (.error e, fs1)
    | .ok _ =>
      match mkClientDir with
      | .error e =>
        (.error ("Failed to create client extract directory: " ++ e), fs1)
      | .ok _ =>
        let fs2 : Fs := { fs1 with dirs := fs1.dirs ++ ["client_update"] }
        match mkServerDir with
        | .error e =>
          (.error ("Failed to create server extract directory: " ++ e), fs2)
        | .ok _ =>
          let fs3 : Fs := { fs2 with dirs := fs2.dirs ++ ["server_update"] }
          let ec := extract_tar_gz clientArchivePath "client_update" openC unpackC
          let es := extract_tar_gz serverArchivePath "server_update" openS unpackS
          let fs4 : Fs := { fs3 with openedArchives := ec.2 ++ es.2 }
          match Except.mapError
              (fun e => "Failed to extract one or both archives: " ++ e)
              (try_join2 ec.1 es.1 exFirst) with
          | .error e => (.error e, fs4)
          | .ok _ => (.ok (), fs4)

/-- C4 (counterexample to the claim as stated): a reclaimer error makes
`start_server` panic (`.unwrap()`, lib.rs:249); the reclaimer's error is not
returned to the caller as the contract's `Error` value. -/
theorem c4_counterexample :
    start_server_outcome (.error "kill failed") true (.ok 7)
      = .panicked "kill failed"
    ∧ (start_server_outcome (.error "kill failed") true (.ok 7)).isErrReturn
        = false :=
  ⟨rfl, rfl⟩

/-- C4 (amended): whenever the Port Reclaimer invoked by `start_server`
returns an error, the `start_server` call fails as a whole - but by
panicking on the unwrapped error, not by returning the reclaimer's error to
the caller. -/
theorem c4_reclaimer_error_fatal (e : String) (exeExists : Bool)
    (spawn : Except String Nat) :
    start_server_outcome (.error e) exeExists spawn = .panicked e
    ∧ (start_server_outcome (.error e) exeExists spawn).isErrReturn = false :=
  ⟨rfl, rfl⟩

/-- C5 (counterexample to the claim as stated): the port is in use, the
owning pid `4242` is identified, the `kill` command executes but reports
failure (`Except.ok false`) - yet the reclaimer reports success instead of a
kill failure, because the source never inspects the kill command's exit
status. -/
theorem c5_counterexample :
    kill_process_using_port 12345 false (.ok "4242") (.ok false)
      = .ok (some "Killed process with PID 4242 using port 12345") := by rfl

/-- C5 (amended): with the port in use, the reclaimer fails with the
unidentified-process error when the inspection tool's trimmed output is
empty, fails with the kill error only when the `kill` command cannot be
executed at all, and reports success whenever the `kill` command executes -
regardless of whether the termination actually succeeded. -/
theorem c5_failure_modes (port : Nat) (out e : String) :
    (∀ killRun, strTrim out = "" →
      kill_process_using_port port false (.ok out) killRun
        = .error ("Failed to identify process using port " ++ toString port))
    ∧ (strTrim out ≠ "" →
      kill_process_using_port port false (.ok out) (.error e)
        = .error ("Failed to kill process: " ++ e))
    ∧ (∀ b, strTrim out ≠ "" →
      kill_process_using_port port false (.ok out) (.ok b)
        = .ok (some ("Killed process with PID " ++ strTrim out
            ++ " using port " ++ toString port))) := by
  refine ⟨?_, ?_, ?_⟩
  · intro killRun ht
    simp [kill_process_using_port, ht]
  · intro ht
    simp [kill_process_using_port, ht]
  · intro b ht
    simp [kill_process_using_port, ht]

/-- C5 witness: port in use and whitespace-only `lsof` output yields the
unidentified-process error. -/
theorem c5_witness :
    kill_process_using_port 12345 false (.ok " \n") (.ok true)
      = .error "Failed to identify process using port 12345" := by
  have h := (c5_failure_modes 12345 " \n" "x").1 (.ok true) (by decide)
  exact h.trans (by rfl)

/-- C9: the reclaimer returns `None` exactly when binding the listener
succeeds; and when the port is in use, an owning pid is identified and the
`kill` command runs, it returns the kill message naming that pid and port. -/
theorem c9_free_port (port : Nat) (bindOk : Bool)
    (lsof : Except String String) (killRun : Except String Bool) :
    (kill_process_using_port port bindOk lsof killRun = .ok none
      ↔ bindOk = true)
    ∧ (∀ (out : String) (b : Bool), bindOk = false → lsof = .ok out →
        strTrim out ≠ "" → killRun = .ok b →
        kill_process_using_port port bindOk lsof killRun
          = .ok (some ("Killed process with PID " ++ strTrim out
              ++ " using port " ++ toString port))) := by
  constructor
  · cases bindOk
    · simp only [Bool.false_eq_true, iff_false]
      intro h
      cases lsof with
      | error e => simp [kill_process_using_port] at h
      | ok out =>
        by_cases ht : strTrim out = ""
        · simp [kill_process_using_port, ht] at h
        · cases killRun with
          | error e => simp [kill_process_using_port, ht] at h
          | ok b => simp [kill_process_using_port, ht] at h
    · simp [kill_process_using_port]
  · intro out b hb hl ht hk
    subst hb; subst hl; subst hk
    simp [kill_process_using_port, ht]

/-- C9 witness: port in use, pid `4242` identified and killed. -/
theorem c9_witness :
    kill_process_using_port 12345 false (.ok "4242") (.ok true)
      = .ok (some "Killed process with PID 4242 using port 12345") := by
  have h := (c9_free_port 12345 false (.ok "4242") (.ok true)).2
    "4242" true rfl rfl (by decide) rfl
  exact h.trans (by rfl)

/-- Relaying a stream of successfully read lines emits one event per line,
in stream order. -/
lemma relay_lines_map_ok (ev : String) (L : List String) :
    relay_lines ev (L.map Except.ok) = L.map (fun l => (ev, l)) := by
  induction L with
  | nil => rfl
  | cons l L ih => simp [relay_lines, ih]

/-- A read error stops the relay after the events of the preceding lines. -/
lemma relay_lines_stops (ev e : String) (rest : List (Except String String))
    (pre : List String) :
    relay_lines ev (pre.map Except.ok ++ .error e :: rest)
      = pre.map (fun l => (ev, l)) := by
  induction pre with
  | nil => rfl
  | cons l L ih => simp [relay_lines, ih]

/-- C8: a server whose stdout yields the lines `outL` and whose stderr
yields the lines `errL` produces exactly one `server-log` event per stdout
line and one `server-error` event per stderr line, in per-stream order; a
read error ends a relay after the preceding lines' events; and the outcome
returned to the caller of `start_server` does not depend on the streams, so
no relay error is ever propagated. -/
theorem c8_relay_per_stream (r : Option String) (pid : Nat)
    (outL errL : List String) :
    start_server (.ok r) true (.ok pid) (outL.map Except.ok)
        (errL.map Except.ok)
      = (.ok pid, outL.map (fun l => ("server-log", l)),
          errL.map (fun l => ("server-error", l)))
    ∧ (∀ (ev e : String) (pre : List String)
        (rest : List (Except String String)),
        relay_lines ev (pre.map Except.ok ++ .error e :: rest)
          = pre.map (fun l => (ev, l)))
    ∧ (∀ stdoutLines stderrLines : List (Except String String),
        (start_server (.ok r) true (.ok pid) stdoutLines stderrLines).1
          = .ok pid) := by
  refine ⟨?_, ?_, ?_⟩
  · show (StartOutcome.ok pid, relay_lines "server-log" (outL.map Except.ok),
      relay_lines "server-error" (errL.map Except.ok)) = _
    rw [relay_lines_map_ok, relay_lines_map_ok]
  · intro ev e pre rest
    exact relay_lines_stops ev e rest pre
  · intro l1 l2
    rfl

/-- Running the download loop over successfully handled chunks appends their
bytes to the file and continues with the remaining events. -/
lemma download_loop_append_ok (fname : String) (bss : List (List Nat)) :
    ∀ (evs : List ChunkEvent) (written : List Nat),
    download_loop fname (bss.map ChunkEvent.chunkOk ++ evs) written
      = download_loop fname evs (written ++ bss.flatten) := by
  induction bss with
  | nil => intro evs written; simp
  | cons bs bss ih =>
    intro evs written
    simp [download_loop, ih, List.append_assoc]

/-- A stream of successfully handled chunks completes the loop with the
concatenation of all chunks on disk. -/
lemma download_loop_all_ok (fname : String) (bss : List (List Nat)) :
    download_loop fname (bss.map ChunkEvent.chunkOk) [] = (.ok (), bss.flatten) := by
  rw [← List.append_nil (bss.map ChunkEvent.chunkOk), download_loop_append_ok]
  simp [download_loop]

/-- With a successful request, status and file creation, `download_file` is
the download loop started on an empty file. -/
lemma download_file_ok_response (fname st : String) (evs : List ChunkEvent) :
    download_file fname (.ok ⟨true, st, evs⟩) (.ok ())
      = ((download_loop fname evs []).1, some (download_loop fname evs []).2) :=
  rfl

/-- C6: with the response body delivered as the chunk sequence `bss`,
`download_file` succeeds and the destination file holds exactly the
concatenated bytes of the stream, regardless of chunk boundaries; a
chunk-read error or a file-write error makes it fail with the corresponding
message, the file holding only the bytes written before the error - a
partial file is never reported as a completed download. -/
theorem c6_round_trip (fname st : String) (bss : List (List Nat)) :
    download_file fname (.ok ⟨true, st, bss.map ChunkEvent.chunkOk⟩) (.ok ())
      = (.ok (), some bss.flatten)
    ∧ (∀ (pre : List (List Nat)) (e : String) (rest : List ChunkEvent),
        download_file fname
            (.ok ⟨true, st, pre.map ChunkEvent.chunkOk
              ++ ChunkEvent.chunkReadErr e :: rest⟩) (.ok ())
          = (.error ("Error reading download stream for " ++ fname ++ ": " ++ e),
             some pre.flatten))
    ∧ (∀ (pre : List (List Nat)) (bs : List Nat) (e : String)
        (rest : List ChunkEvent),
        download_file fname
            (.ok ⟨true, st, pre.map ChunkEvent.chunkOk
              ++ ChunkEvent.chunkWriteErr bs e :: rest⟩) (.ok ())
          = (.error ("Error writing to file " ++ fname ++ ": " ++ e),
             some pre.flatten)) := by
  refine ⟨?_, ?_, ?_⟩
  · rw [download_file_ok_response, download_loop_all_ok]
  · intro pre e rest
    rw [download_file_ok_response, download_loop_append_ok]
    simp [download_loop]
  · intro pre bs e rest
    rw [download_file_ok_response, download_loop_append_ok]
    simp [download_loop]

/-- Every error the download loop can produce names the destination file. -/
lemma download_loop_error_mentions (fname : String) :
    ∀ (evs : List ChunkEvent) (written : List Nat) (e : String) (w : List Nat),
    download_loop fname evs written = (.error e, w) → mentions e fname := by
  intro evs
  induction evs with
  | nil =>
    intro written e w h
    simp [download_loop] at h
  | cons ev rest ih =>
    intro written e w h
    cases ev with
    | chunkOk bs =>
      rw [download_loop] at h
      exact ih (written ++ bs) e w h
    | chunkReadErr e0 =>
      rw [download_loop] at h
      rw [Prod.mk.injEq] at h
      rw [← (Except.error.injEq _ _).mp h.1]
      exact ⟨"Error reading download stream for ", ": " ++ e0,
        String.append_assoc _ ": " e0⟩
    | chunkWriteErr bs e0 =>
      rw [download_loop] at h
      rw [Prod.mk.injEq] at h
      rw [← (Except.error.injEq _ _).mp h.1]
      exact ⟨"Error writing to file ", ": " ++ e0,
        String.append_assoc _ ": " e0⟩

/-- Every error `download_file` can produce names the destination file. -/
lemma download_file_error_mentions (fname : String)
    (send : Except String DlResponse) (create : Except String Unit)
    (e : String)
    (h : (download_file fname send create).1 = .error e) :
    mentions e fname := by
  cases send with
  | error e0 =>
    simp [download_file] at h
    rw [← h]
    exact ⟨"Failed to download ", ": " ++ e0, String.append_assoc _ ": " e0⟩
  | ok resp =>
    cases hs : resp.statusSuccess with
    | false =>
      simp [download_file, hs] at h
      rw [← h]
      exact ⟨"Failed to download ", ", status: " ++ resp.status,
        String.append_assoc _ ", status: " resp.status⟩
    | true =>
      cases create with
      | error e0 =>
        simp [download_file, hs] at h
        rw [← h]
        exact ⟨"Failed to create file ", ": " ++ e0,
          String.append_assoc _ ": " e0⟩
      | ok u =>
        simp [download_file, hs] at h
        exact download_loop_error_mentions fname resp.chunks [] e _
          (Prod.ext_iff.mpr ⟨h, rfl⟩)

/-- Shared helper: when the download join fails, the whole command returns
the wrapped download error, with exactly the staging directory created, the
two tasks' files as written, and no archive opened. -/
lemma dae_download_error_case
    (sendC : Except String DlResponse) (createC : Except String Unit)
    (sendS : Except String DlResponse) (createS : Except String Unit)
    (dlFirst : Bool) (mkClientDir mkServerDir : Except String Unit)
    (openC unpackC openS unpackS : Except String Unit) (exFirst : Bool)
    (e : String)
    (h : try_join2 (download_file clientArchivePath sendC createC).1
          (download_file serverArchivePath sendS createS).1 dlFirst
        = .error e) :
    download_and_extract_updates (.ok ()) sendC createC sendS createS dlFirst
        mkClientDir mkServerDir openC unpackC openS unpackS exFirst
      = (.error ("Failed to download one or both files: " ++ e),
         ⟨["updates"],
          stagedFiles (download_file clientArchivePath sendC createC).2
            (download_file serverArchivePath sendS createS).2, []⟩) := by
  simp only [download_and_extract_updates, h, Except.mapError]

/-- C7: the fetch stage of `download_and_extract_updates` is all-or-nothing:
if the client download fails (and the server download succeeds, or the
scheduler surfaces the client task first), the whole command fails with the
wrapping message around the client task's error, which names the client
file; symmetrically for the server download.  In both cases the staging
directory holds exactly what each task wrote - the other task's file is not
cleaned up. -/
theorem c7_fetch_all_or_nothing
    (sendC sendS : Except String DlResponse)
    (createC createS : Except String Unit) (dlFirst : Bool)
    (mkClientDir mkServerDir : Except String Unit)
    (openC unpackC openS unpackS : Except String Unit) (exFirst : Bool)
    (ec es : String) :
    ((download_file clientArchivePath sendC createC).1 = .error ec →
      ((download_file serverArchivePath sendS createS).1 = .ok ()
        ∨ dlFirst = true) →
      download_and_extract_updates (.ok ()) sendC createC sendS createS dlFirst
          mkClientDir mkServerDir openC unpackC openS unpackS exFirst
        = (.error ("Failed to download one or both files: " ++ ec),
            ⟨["updates"],
             stagedFiles (download_file clientArchivePath sendC createC).2
               (download_file serverArchivePath sendS createS).2, []⟩)
      ∧ mentions ec clientArchivePath)
    ∧ ((download_file serverArchivePath sendS createS).1 = .error es →
      ((download_file clientArchivePath sendC createC).1 = .ok ()
        ∨ dlFirst = false) →
      download_and_extract_updates (.ok ()) sendC createC sendS createS dlFirst
          mkClientDir mkServerDir openC unpackC openS unpackS exFirst
        = (.error ("Failed to download one or both files: " ++ es),
            ⟨["updates"],
             stagedFiles (download_file clientArchivePath sendC createC).2
               (download_file serverArchivePath sendS createS).2, []⟩)
      ∧ mentions es serverArchivePath) := by
  constructor
  · intro hc hd
    refine ⟨dae_download_error_case sendC createC sendS createS dlFirst
      mkClientDir mkServerDir openC unpackC openS unpackS exFirst ec ?_,
      download_file_error_mentions _ _ _ _ hc⟩
    rcases hd with hs | hf
    · rw [hc, hs]; rfl
    · subst hf
      rw [hc]
      cases hs1 : (download_file serverArchivePath sendS createS).1 <;> rfl
  · intro hs hd
    refine ⟨dae_download_error_case sendC createC sendS createS dlFirst
      mkClientDir mkServerDir openC unpackC openS unpackS exFirst es ?_,
      download_file_error_mentions _ _ _ _ hs⟩
    rcases hd with hc | hf
    · rw [hc, hs]; rfl
    · subst hf
      rw [hs]
      cases hc1 : (download_file clientArchivePath sendC createC).1 <;> rfl

/-- C7 witness: the client request fails outright, the server download
succeeds with an empty body; the command fails naming the client file and
the server's written file stays. -/
theorem c7_witness :
    download_and_extract_updates (.ok ()) (.error "boom") (.ok ())
        (.ok ⟨true, "200", []⟩) (.ok ()) true (.ok ()) (.ok ())
        (.ok ()) (.ok ()) (.ok ()) (.ok ()) true
      = (.error "Failed to download one or both files: Failed to download updates/client.tar.gz: boom",
         ⟨["updates"], [(serverArchivePath, [])], []⟩)
    ∧ mentions "Failed to download updates/client.tar.gz: boom"
        clientArchivePath := by
  have h := (c7_fetch_all_or_nothing (.error "boom") (.ok ⟨true, "200", []⟩)
    (.ok ()) (.ok ()) true (.ok ()) (.ok ()) (.ok ()) (.ok ()) (.ok ())
    (.ok ()) true "Failed to download updates/client.tar.gz: boom" "x").1
    (by rfl) (Or.inl (by rfl))
  exact ⟨h.1.trans (by rfl), h.2⟩

/-- C10: when either download fails, `download_and_extract_updates` returns
the download error before any extraction step: the only directory created is
the staging directory (`client_update` and `server_update` are not
created), and no archive file is opened. -/
theorem c10_no_extraction_on_download_failure
    (sendC sendS : Except String DlResponse)
    (createC createS : Except String Unit) (dlFirst : Bool)
    (mkClientDir mkServerDir : Except String Unit)
    (openC unpackC openS unpackS : Except String Unit) (exFirst : Bool)
    (e : String)
    (h : try_join2 (download_file clientArchivePath sendC createC).1
          (download_file serverArchivePath sendS createS).1 dlFirst
        = .error e) :
    download_and_extract_updates (.ok ()) sendC createC sendS createS dlFirst
        mkClientDir mkServerDir openC unpackC openS unpackS exFirst
      = (.error ("Failed to download one or both files: " ++ e),
         ⟨["updates"],
          stagedFiles (download_file clientArchivePath sendC createC).2
            (download_file serverArchivePath sendS createS).2, []⟩)
    ∧ (download_and_extract_updates (.ok ()) sendC createC sendS createS
        dlFirst mkClientDir mkServerDir openC unpackC openS unpackS
        exFirst).2.dirs = ["updates"]
    ∧ "client_update" ∉ (download_and_extract_updates (.ok ()) sendC createC
        sendS createS dlFirst mkClientDir mkServerDir openC unpackC openS
        unpackS exFirst).2.dirs
    ∧ "server_update" ∉ (download_and_extract_updates (.ok ()) sendC createC
        sendS createS dlFirst mkClientDir mkServerDir openC unpackC openS
        unpackS exFirst).2.dirs
    ∧ (download_and_extract_updates (.ok ()) sendC createC sendS createS
        dlFirst mkClientDir mkServerDir openC unpackC openS unpackS
        exFirst).2.openedArchives = [] := by
  have hd := dae_download_error_case sendC createC sendS createS dlFirst
    mkClientDir mkServerDir openC unpackC openS unpackS exFirst e h
  refine ⟨hd, ?_, ?_, ?_, ?_⟩ <;> rw [hd]
  · show "client_update" ∉ ["updates"]
    decide
  · show "server_update" ∉ ["updates"]
    decide

/-- C10 witness: client request fails, server download writes its file; the
command stops after the download join with only the staging directory
created and no archive opened. -/
theorem c10_witness :
    download_and_extract_updates (.ok ()) (.error "net down") (.ok ())
        (.ok ⟨true, "200", [ChunkEvent.chunkOk [7]]⟩) (.ok ()) true (.ok ())
        (.ok ()) (.ok ()) (.ok ()) (.ok ()) (.ok ()) true
      = (.error "Failed to download one or both files: Failed to download updates/client.tar.gz: net down",
         ⟨["updates"], [(serverArchivePath, [7])], []⟩) := by
  have h := (c10_no_extraction_on_download_failure (.error "net down")
    (.ok ⟨true, "200", [ChunkEvent.chunkOk [7]]⟩) (.ok ()) (.ok ()) true
    (.ok ()) (.ok ()) (.ok ()) (.ok ()) (.ok ()) (.ok ()) true
    "Failed to download updates/client.tar.gz: net down" (by rfl)).1
  exact h.trans (by rfl)
